import Mathlib

/-
Shallow embedding of the jamiblossum chart CLI core.

The program under verification normalizes a birth date, wall-clock time
and gender string, invokes an external astrology engine adaptively
(retrying with fewer optional keyword arguments on signature mismatch),
and renders the resulting chart as text or JSON.

Modelling conventions:
* Python strings are `List Char` (`PyStr`), so that `strip`, `lower`,
  `split(":")` and `int(...)` can be embedded as structural functions
  that the kernel evaluates.  `int(...)` is embedded on its
  whitespace-stripped optional-sign decimal form (the underscore and
  non-ASCII-digit extensions of the Python built-in are not modelled;
  no input considered here uses them).
* Functions that raise become functions into `Except`, with one error
  constructor per distinct `raise` site.
* The engine entry point passed to the adaptive invoker is a pure
  function from positional arguments and keyword arguments to a result
  or an exception; exceptions carry a Boolean saying whether they are a
  `TypeError`, since that is the only class the invoker catches.
-/

deriving instance DecidableEq for Except

abbrev PyStr := List Char

def pyIsSpace (c : Char) : Bool :=
  c = ' ' || c = '\t' || c = '\n' || c = '\r'

def dropLeading (cs : List Char) : List Char :=
  match cs with
  | [] => []
  | c :: rest => if pyIsSpace c then dropLeading rest else c :: rest

/-- Python `str.strip()` on ASCII whitespace. -/
def pyStrip (cs : PyStr) : PyStr :=
  dropLeading (dropLeading cs.reverse).reverse

/-- Python `str.rstrip()` on ASCII whitespace. -/
def pyRStrip (cs : PyStr) : PyStr :=
  (dropLeading cs.reverse).reverse

def pyLowerChar (c : Char) : Char :=
  if 'A' ≤ c ∧ c ≤ 'Z' then Char.ofNat (c.toNat + 32) else c

/-- Python `str.lower()` (ASCII case folding; the token sets below only
contain ASCII letters and caseless CJK/Hangul characters). -/
def pyLower (cs : PyStr) : PyStr := cs.map pyLowerChar

/-- Python `str.split(":")`. -/
def pySplitColon (cs : PyStr) : List PyStr :=
  match cs with
  | [] => [[]]
  | c :: rest =>
    let r := pySplitColon rest
    if c = ':' then [] :: r
    else
      match r with
      | [] => [[c]]
      | hd :: tl => (c :: hd) :: tl

def digitVal (c : Char) : Option Nat :=
  if '0' ≤ c ∧ c ≤ '9' then some (c.toNat - '0'.toNat) else none

def parseDigits (cs : List Char) (acc : Nat) : Option Nat :=
  match cs with
  | [] => some acc
  | c :: rest =>
    match digitVal c with
    | some d => parseDigits rest (acc * 10 + d)
    | none => none

/-- Python `int(s)` for a decimal string with optional sign and
surrounding whitespace; everything else raises `ValueError` (`none`). -/
def pyToInt (cs : PyStr) : Option Int :=
  match pyStrip cs with
  | [] => none
  | '-' :: rest =>
    match rest with
    | [] => none
    | _ => (parseDigits rest 0).map (fun n => -(n : Int))
  | '+' :: rest =>
    match rest with
    | [] => none
    | _ => (parseDigits rest 0).map (fun n => (n : Int))
  | other => (parseDigits other 0).map (fun n => (n : Int))

/- ===================== src/time.py ===================== -/

/-- One constructor per `raise ValueError(...)` site in `src/time.py`;
`format` and `numeric` are the spec's ParseError, the range errors are
its ValidationError. -/
inductive TimeError
  | required
  | format
  | numeric
  | hourRange
  | minuteRange
deriving DecidableEq, Repr

structure ClockTime where
  hour : Int
  minute : Int
deriving DecidableEq, Repr

/-- `parse_hhmm` from `src/time.py`: strip, split on ":", require
exactly two integer parts, then range-check hour and minute. -/
def parse_hhmm (value : Option PyStr) : Except TimeError ClockTime :=
  match value with
  | none => .error .required
  | some v =>
    let text := pyStrip v
    match pySplitColon text with
    | [p0, p1] =>
      match pyToInt p0, pyToInt p1 with
      | some hour, some minute =>
        if ¬(0 ≤ hour ∧ hour ≤ 23) then .error .hourRange
        else if ¬(0 ≤ minute ∧ minute ≤ 59) then .error .minuteRange
        else .ok ⟨hour, minute⟩
      | _, _ => .error .numeric
    | _ => .error .format

/-- `time_to_index` from `src/time.py`: hour 23 is bucket 0, hour 0 is
bucket 12, hours 1..22 map to ((hour - 1) // 2) + 1. -/
def time_to_index (hour minute : Int) : Except TimeError Int :=
  if ¬(0 ≤ hour ∧ hour ≤ 23) then .error .hourRange
  else if ¬(0 ≤ minute ∧ minute ≤ 59) then .error .minuteRange
  else if hour = 23 then .ok 0
  else if hour = 0 then .ok 12
  else .ok ((hour - 1) / 2 + 1)

/-- `hhmm_to_index` from `src/time.py`: parse then convert. -/
def hhmm_to_index (value : Option PyStr) : Except TimeError Int :=
  match parse_hhmm value with
  | .error e => .error e
  | .ok t => time_to_index t.hour t.minute


/- ===================== src/ziwei.py ===================== -/

/-- The two `raise ValueError(...)` sites in `normalize_gender`:
`required` is "gender is required" (null input), `invalid` is
"gender must be one of: male/female, 남/여". -/
inductive GenderError
  | required
  | invalid
deriving DecidableEq, Repr

/-- The `male` accepted-token set from `normalize_gender`. -/
def maleTokens : List PyStr :=
  ["m".data, "male".data, "man".data, "남".data, "남자".data, "남성".data, "男".data]

/-- The `female` accepted-token set from `normalize_gender`. -/
def femaleTokens : List PyStr :=
  ["f".data, "female".data, "woman".data, "여".data, "여자".data, "여성".data, "女".data]

/-- `normalize_gender` from `src/ziwei.py`. -/
def normalize_gender (value : Option PyStr) : Except GenderError PyStr :=
  match value with
  | none => .error .required
  | some value =>
    let v := pyLower (pyStrip value)
    if maleTokens.contains v then .ok "男".data
    else if femaleTokens.contains v then .ok "女".data
    else .error .invalid


/-- A Python exception as seen by `_call_astro`: the invoker only
distinguishes `TypeError` from everything else, plus an identifying
code so distinct failures can be told apart. -/
structure Exc where
  isTypeError : Bool
  code : Nat
deriving DecidableEq, Repr

/-- A Python `**kwargs` dict: keys in insertion order with their values
(keys are unique in every dict the program builds). -/
abbrev Kwargs (V : Type) := List (String × V)

def kwKeys {V : Type} (kwargs : Kwargs V) : List String := kwargs.map Prod.fst

/-- `kw2.pop(key, None)` on a fresh copy of the dict. -/
def popKey {V : Type} (kwargs : Kwargs V) (key : String) : Kwargs V :=
  kwargs.filter (fun p => p.1 != key)

/-- The `optional_keys` tuple in `_call_astro`, in source order. -/
def optional_keys : List String :=
  ["language", "fix_leap", "fixLeap", "is_leap_month", "isLeapMonth"]

/-- The `for key in optional_keys` retry loop of `_call_astro`: for each
key present in the original kwargs, call `fn` without that one key;
return on success, swallow a `TypeError`, propagate anything else.
The second component records the kwargs of every call attempted. -/
def dropRetries {A V R : Type} (fn : A → Kwargs V → Except Exc R) (args : A)
    (kwargs : Kwargs V) : List String → Option (Except Exc R) × List (Kwargs V)
  | [] => (none, [])
  | key :: rest =>
    if (kwKeys kwargs).contains key then
      let kw2 := popKey kwargs key
      match fn args kw2 with
      | .ok r => (some (.ok r), [kw2])
      | .error e2 =>
        if e2.isTypeError then
          let out := dropRetries fn args kwargs rest
          (out.1, kw2 :: out.2)
        else
          (some (.error e2), [kw2])
    else
      dropRetries fn args kwargs rest

/-- `_call_astro` from `src/ziwei.py`, instrumented: the result paired
with the kwargs of every call made to `fn`, in order.  The full call is
tried first; on a `TypeError` the one-key-removal retries run, then a
positional-only call, whose `TypeError` resurfaces the original
exception `exc`. -/
def _call_astro_traced {A V R : Type} (fn : A → Kwargs V → Except Exc R) (args : A)
    (kwargs : Kwargs V) : Except Exc R × List (Kwargs V) :=
  match fn args kwargs with
  | .ok r => (.ok r, [kwargs])
  | .error exc =>
    if exc.isTypeError then
      let out := dropRetries fn args kwargs optional_keys
      match out.1 with
      | some res => (res, kwargs :: out.2)
      | none =>
        match fn args [] with
        | .ok r => (.ok r, kwargs :: out.2 ++ [[]])
        | .error e3 =>
          if e3.isTypeError then (.error exc, kwargs :: out.2 ++ [[]])
          else (.error e3, kwargs :: out.2 ++ [[]])
    else
      (.error exc, [kwargs])

/-- `_call_astro` proper: just the returned value or exception. -/
def _call_astro {A V R : Type} (fn : A → Kwargs V → Except Exc R) (args : A)
    (kwargs : Kwargs V) : Except Exc R :=
  (_call_astro_traced fn args kwargs).1

/-- A value in one of the kwargs dicts `create_chart` builds. -/
inductive PyVal
  | str : PyStr → PyVal
  | bool : Bool → PyVal
deriving DecidableEq, Repr

/-- The kwargs dict `create_chart` passes for a solar-calendar request. -/
def solar_kwargs (language : PyStr) (fix_leap : Bool) : Kwargs PyVal :=
  [("language", .str language), ("fix_leap", .bool fix_leap), ("fixLeap", .bool fix_leap)]

/-- The kwargs dict `create_chart` passes for a lunar-calendar request. -/
def lunar_kwargs (language : PyStr) (is_leap_month fix_leap : Bool) : Kwargs PyVal :=
  [("language", .str language), ("is_leap_month", .bool is_leap_month),
   ("isLeapMonth", .bool is_leap_month), ("fix_leap", .bool fix_leap),
   ("fixLeap", .bool fix_leap)]

/- ===================== src/render.py ===================== -/

/-- A palace entry as consumed by the palace-line formatting of the two
renderers (`render_chart` reads attributes, `render_text` reads the
mapping keys); `name`, `heavenlyStem`, `earthlyBranch` stand for the
already-resolved display strings. -/
structure PalaceEntry where
  name : PyStr
  heavenlyStem : PyStr
  earthlyBranch : PyStr
  isBodyPalace : Bool
  isOriginalPalace : Bool
deriving DecidableEq, Repr

/-- Python `" ".join(flags)`. -/
def joinSpace : List PyStr → PyStr
  | [] => []
  | [x] => x
  | x :: xs => x ++ ' ' :: joinSpace xs

/-- The `flags` list built in `render_text` (fallback renderer):
append "body" when `isBodyPalace`, then "origin" when
`isOriginalPalace`. -/
def renderTextFlags (p : PalaceEntry) : List PyStr :=
  (if p.isBodyPalace then ["body".data] else []) ++
  (if p.isOriginalPalace then ["origin".data] else [])

/-- `flag_txt` in `render_text`: " [" ++ space-joined flags ++ "]" when
any flag is set, else the empty string. -/
def renderTextFlagTxt (p : PalaceEntry) : PyStr :=
  let flags := renderTextFlags p
  if flags.isEmpty then [] else " [".data ++ joinSpace flags ++ "]".data

/-- The per-palace header line of `render_text`:
`- name hs eb flag_txt` (no rstrip on this path). -/
def renderTextPalaceLine (p : PalaceEntry) : PyStr :=
  "- ".data ++ p.name ++ " ".data ++ p.heavenlyStem ++ p.earthlyBranch ++
    renderTextFlagTxt p

/-- The `flags` list built in `render_chart` (primary renderer); the
same two-flag construction, from the attribute reads. -/
def renderChartFlags (p : PalaceEntry) : List PyStr :=
  (if p.isBodyPalace then ["body".data] else []) ++
  (if p.isOriginalPalace then ["origin".data] else [])

/-- `flag_txt` in `render_chart`. -/
def renderChartFlagTxt (p : PalaceEntry) : PyStr :=
  let flags := renderChartFlags p
  if flags.isEmpty then [] else " [".data ++ joinSpace flags ++ "]".data

/-- The per-palace header line of `render_chart`, which `rstrip`s the
formatted line. -/
def renderChartPalaceLine (p : PalaceEntry) : PyStr :=
  pyRStrip ("- ".data ++ p.name ++ " ".data ++ p.heavenlyStem ++ p.earthlyBranch ++
    renderChartFlagTxt p)


/- ===================== theorems ===================== -/

/-- Helper: `parse_hhmm` only succeeds with in-range components. -/
lemma parse_hhmm_ok_ranges (v : Option PyStr) (t : ClockTime)
    (h : parse_hhmm v = .ok t) :
    0 ≤ t.hour ∧ t.hour ≤ 23 ∧ 0 ≤ t.minute ∧ t.minute ≤ 59 := by
  match v with
  | none => simp [parse_hhmm] at h
  | some s =>
    simp only [parse_hhmm] at h
    split at h
    case _ p0 p1 =>
      split at h
      case _ hour minute _ _ =>
        split at h
        · exact absurd h (by simp)
        · split at h
          · exact absurd h (by simp)
          · rename_i h1 h2
            rw [Except.ok.injEq] at h
            subst h
            dsimp only
            omega
      case _ => exact absurd h (by simp)
    case _ => exact absurd h (by simp)

/-- Claim C3: for valid hours and minutes, `time_to_index` sends hour 23
to bucket 0, hour 0 to bucket 12, and hour in 1..22 to
((hour - 1) // 2) + 1; the minute never affects the bucket. -/
theorem time_to_index_bucket_rule (hour minute : Int)
    (hh0 : 0 ≤ hour) (hh1 : hour ≤ 23) (hm0 : 0 ≤ minute) (hm1 : minute ≤ 59) :
    (hour = 23 → time_to_index hour minute = .ok 0) ∧
    (hour = 0 → time_to_index hour minute = .ok 12) ∧
    (1 ≤ hour → hour ≤ 22 → time_to_index hour minute = .ok ((hour - 1) / 2 + 1)) ∧
    (∀ m2 : Int, 0 ≤ m2 → m2 ≤ 59 →
      time_to_index hour minute = time_to_index hour m2) := by
  refine ⟨fun h23 => ?_, fun h0 => ?_, fun ha hb => ?_, fun m2 hm20 hm21 => ?_⟩
  · simp only [time_to_index]
    rw [if_neg (by omega), if_neg (by omega), if_pos h23]
  · simp only [time_to_index]
    rw [if_neg (by omega), if_neg (by omega), if_neg (by omega), if_pos h0]
  · simp only [time_to_index]
    rw [if_neg (by omega), if_neg (by omega), if_neg (by omega), if_neg (by omega)]
  · simp only [time_to_index]
    rw [if_neg (show ¬¬(0 ≤ hour ∧ hour ≤ 23) by omega),
        if_neg (show ¬¬(0 ≤ minute ∧ minute ≤ 59) by omega),
        if_neg (show ¬¬(0 ≤ m2 ∧ m2 ≤ 59) by omega),
        if_neg (show ¬¬(0 ≤ hour ∧ hour ≤ 23) by omega)]

theorem time_to_index_bucket_rule_applied :
    time_to_index 5 0 = .ok 3 ∧ time_to_index 5 0 = time_to_index 5 59 := by
  have h := time_to_index_bucket_rule 5 0 (by norm_num) (by norm_num) (by norm_num) (by norm_num)
  exact ⟨h.2.2.1 (by norm_num) (by norm_num), h.2.2.2 59 (by norm_num) (by norm_num)⟩

/-- Claim C10: every bucket 0..12 is hit by some valid hour/minute, and
every valid hour/minute yields a bucket in 0..12. -/
theorem time_to_index_surjective_onto_buckets :
    (∀ b : Int, 0 ≤ b → b ≤ 12 → ∃ h m : Int,
      0 ≤ h ∧ h ≤ 23 ∧ 0 ≤ m ∧ m ≤ 59 ∧ time_to_index h m = .ok b) ∧
    (∀ h m : Int, 0 ≤ h → h ≤ 23 → 0 ≤ m → m ≤ 59 →
      ∃ r : Int, time_to_index h m = .ok r ∧ 0 ≤ r ∧ r ≤ 12) := by
  constructor
  · intro b hb0 hb1
    interval_cases b
    · exact ⟨23, 0, by norm_num, by norm_num, by norm_num, by norm_num, by decide⟩
    · exact ⟨1, 0, by norm_num, by norm_num, by norm_num, by norm_num, by decide⟩
    · exact ⟨3, 0, by norm_num, by norm_num, by norm_num, by norm_num, by decide⟩
    · exact ⟨5, 0, by norm_num, by norm_num, by norm_num, by norm_num, by decide⟩
    · exact ⟨7, 0, by norm_num, by norm_num, by norm_num, by norm_num, by decide⟩
    · exact ⟨9, 0, by norm_num, by norm_num, by norm_num, by norm_num, by decide⟩
    · exact ⟨11, 0, by norm_num, by norm_num, by norm_num, by norm_num, by decide⟩
    · exact ⟨13, 0, by norm_num, by norm_num, by norm_num, by norm_num, by decide⟩
    · exact ⟨15, 0, by norm_num, by norm_num, by norm_num, by norm_num, by decide⟩
    · exact ⟨17, 0, by norm_num, by norm_num, by norm_num, by norm_num, by decide⟩
    · exact ⟨19, 0, by norm_num, by norm_num, by norm_num, by norm_num, by decide⟩
    · exact ⟨21, 0, by norm_num, by norm_num, by norm_num, by norm_num, by decide⟩
    · exact ⟨0, 0, by norm_num, by norm_num, by norm_num, by norm_num, by decide⟩
  · intro h m hh0 hh1 hm0 hm1
    simp only [time_to_index]
    rw [if_neg (by omega), if_neg (by omega)]
    by_cases h23 : h = 23
    · rw [if_pos h23]
      exact ⟨0, rfl, by norm_num, by norm_num⟩
    · rw [if_neg h23]
      by_cases h0 : h = 0
      · rw [if_pos h0]
        exact ⟨12, rfl, by norm_num, by norm_num⟩
      · rw [if_neg h0]
        exact ⟨(h - 1) / 2 + 1, rfl, by omega, by omega⟩

theorem time_to_index_surjective_onto_buckets_applied :
    ∃ h m : Int, 0 ≤ h ∧ h ≤ 23 ∧ 0 ≤ m ∧ m ≤ 59 ∧ time_to_index h m = .ok 7 :=
  time_to_index_surjective_onto_buckets.1 7 (by norm_num) (by norm_num)

/-- Claim C6: the listed malformed time strings all fail with the
corresponding error, and a bucket is only ever produced after a
successful, in-range parse. -/
theorem hhmm_to_index_rejects_malformed :
    hhmm_to_index (some "25:00".data) = .error .hourRange ∧
    hhmm_to_index (some "12:61".data) = .error .minuteRange ∧
    hhmm_to_index (some "noon".data) = .error .format ∧
    hhmm_to_index (some "12-30".data) = .error .format ∧
    hhmm_to_index (some "12:30:00".data) = .error .format ∧
    (∀ (v : Option PyStr) (b : Int), hhmm_to_index v = .ok b →
      ∃ t : ClockTime, parse_hhmm v = .ok t ∧
        0 ≤ t.hour ∧ t.hour ≤ 23 ∧ 0 ≤ t.minute ∧ t.minute ≤ 59) := by
  refine ⟨by decide, by decide, by decide, by decide, by decide, ?_⟩
  intro v b h
  simp only [hhmm_to_index] at h
  split at h
  · exact absurd h (by simp)
  · rename_i t ht
    exact ⟨t, ht, parse_hhmm_ok_ranges v t ht⟩

theorem hhmm_to_index_rejects_malformed_applied :
    ∃ t : ClockTime, parse_hhmm (some "12:30".data) = .ok t ∧
      0 ≤ t.hour ∧ t.hour ≤ 23 ∧ 0 ≤ t.minute ∧ t.minute ≤ 59 :=
  hhmm_to_index_rejects_malformed.2.2.2.2.2 (some "12:30".data) 6 (by decide)

/-- Helper: a successful `normalize_gender` returns one of the two
canonical tokens. -/
lemma normalize_gender_canonical (v : Option PyStr) (g : PyStr)
    (h : normalize_gender v = .ok g) : g = "男".data ∨ g = "女".data := by
  match v with
  | none => simp [normalize_gender] at h
  | some s =>
    simp only [normalize_gender] at h
    split at h
    · rw [Except.ok.injEq] at h
      exact Or.inl h.symm
    · split at h
      · rw [Except.ok.injEq] at h
        exact Or.inr h.symm
      · exact absurd h (by simp)

/-- Claim C5: `normalize_gender` yields one of exactly two canonical
tokens; the listed male and female variants map to them, unmatched and
empty inputs fail with the invalid-token error, a null input fails with
the distinct required error. -/
theorem normalize_gender_token_sets :
    (∀ (v : Option PyStr) (g : PyStr), normalize_gender v = .ok g →
      g = "男".data ∨ g = "女".data) ∧
    normalize_gender (some "male".data) = .ok "男".data ∧
    normalize_gender (some "Male".data) = .ok "男".data ∧
    normalize_gender (some " MALE ".data) = .ok "男".data ∧
    normalize_gender (some "m".data) = .ok "男".data ∧
    normalize_gender (some "남".data) = .ok "男".data ∧
    normalize_gender (some "남자".data) = .ok "男".data ∧
    normalize_gender (some "男".data) = .ok "男".data ∧
    normalize_gender (some "female".data) = .ok "女".data ∧
    normalize_gender (some "Female".data) = .ok "女".data ∧
    normalize_gender (some " FEMALE ".data) = .ok "女".data ∧
    normalize_gender (some "f".data) = .ok "女".data ∧
    normalize_gender (some "여".data) = .ok "女".data ∧
    normalize_gender (some "여자".data) = .ok "女".data ∧
    normalize_gender (some "女".data) = .ok "女".data ∧
    normalize_gender (some "other".data) = .error .invalid ∧
    normalize_gender (some "".data) = .error .invalid ∧
    normalize_gender none = .error .required ∧
    GenderError.required ≠ GenderError.invalid := by
  refine ⟨normalize_gender_canonical, ?_⟩
  decide

theorem normalize_gender_token_sets_applied :
    "男".data = "男".data ∨ "男".data = "女".data :=
  normalize_gender_token_sets.1 (some "m".data) "男".data (by decide)

/-- Claim C8: `normalize_gender` is idempotent — both canonical output
tokens are themselves accepted inputs, so re-normalizing a successful
result returns it unchanged. -/
theorem normalize_gender_idempotent (v : Option PyStr) (g : PyStr)
    (h : normalize_gender v = .ok g) : normalize_gender (some g) = .ok g := by
  rcases normalize_gender_canonical v g h with hg | hg
  · rw [hg]; decide
  · rw [hg]; decide

theorem normalize_gender_idempotent_applied :
    normalize_gender (some "男".data) = .ok "男".data :=
  normalize_gender_idempotent (some "m".data) "男".data (by decide)

/-- Helper: when every call of `fn` fails with a `TypeError`, the
one-key-removal retry loop finds no success. -/
lemma dropRetries_none_of_typeErrors {A V R : Type}
    (fn : A → Kwargs V → Except Exc R) (args : A) (kwargs : Kwargs V)
    (hTE : ∀ kw : Kwargs V, ∃ e, fn args kw = .error e ∧ e.isTypeError = true) :
    ∀ ks : List String, (dropRetries fn args kwargs ks).1 = none := by
  intro ks
  induction ks with
  | nil => rfl
  | cons key rest ih =>
    simp only [dropRetries]
    by_cases hc : (kwKeys kwargs).contains key
    · obtain ⟨e, he, hte⟩ := hTE (popKey kwargs key)
      simp only [hc, if_true, he, hte, if_true, ih]
    · simp only [hc, Bool.false_eq_true, if_false, ih]

/-- Claim C2: when the full call and every fallback call fail with a
`TypeError`, `_call_astro` surfaces the exception of the original,
most-argument-rich call. -/
theorem call_astro_surfaces_original_failure {A V R : Type}
    (fn : A → Kwargs V → Except Exc R) (args : A) (kwargs : Kwargs V) (e0 : Exc)
    (h0 : fn args kwargs = .error e0)
    (hTE : ∀ kw : Kwargs V, ∃ e, fn args kw = .error e ∧ e.isTypeError = true) :
    _call_astro fn args kwargs = .error e0 := by
  have he0 : e0.isTypeError = true := by
    obtain ⟨e, he, hte⟩ := hTE kwargs
    rw [h0, Except.error.injEq] at he
    rw [he]; exact hte
  have hnone := dropRetries_none_of_typeErrors fn args kwargs hTE optional_keys
  obtain ⟨e3, he3, hte3⟩ := hTE []
  simp only [_call_astro, _call_astro_traced, h0, he0, if_true, hnone, he3, hte3]

theorem call_astro_surfaces_original_failure_applied :
    _call_astro
      (fun (_ : Unit) (kw : Kwargs PyVal) =>
        (Except.error ⟨true, (kwKeys kw).length⟩ : Except Exc Unit))
      () (solar_kwargs "ko-KR".data true) = .error ⟨true, 3⟩ :=
  call_astro_surfaces_original_failure _ () (solar_kwargs "ko-KR".data true)
    ⟨true, 3⟩ rfl (fun kw => ⟨⟨true, (kwKeys kw).length⟩, rfl, rfl⟩)

/-- Claim C9: a non-`TypeError` failure of the first, fullest call is
propagated unchanged, and the trace shows that no further call was
attempted. -/
theorem call_astro_propagates_non_type_error {A V R : Type}
    (fn : A → Kwargs V → Except Exc R) (args : A) (kwargs : Kwargs V) (e0 : Exc)
    (h0 : fn args kwargs = .error e0) (hnt : e0.isTypeError = false) :
    _call_astro_traced fn args kwargs = (.error e0, [kwargs]) := by
  simp only [_call_astro_traced, h0, hnt, Bool.false_eq_true, if_false]

theorem call_astro_propagates_non_type_error_applied :
    _call_astro_traced
      (fun (_ : Unit) (_ : Kwargs PyVal) => (Except.error ⟨false, 7⟩ : Except Exc Unit))
      () (solar_kwargs "ko-KR".data true)
      = (.error ⟨false, 7⟩, [solar_kwargs "ko-KR".data true]) :=
  call_astro_propagates_non_type_error _ () (solar_kwargs "ko-KR".data true)
    ⟨false, 7⟩ rfl rfl

/-- Helper: when every call with a non-empty kwargs dict fails with a
`TypeError` and the kwargs-free call succeeds with `r`, the retry loop
either finds nothing or finds exactly `r`. -/
lemma dropRetries_none_or_ok {A V R : Type}
    (fn : A → Kwargs V → Except Exc R) (args : A) (kwargs : Kwargs V) (r : R)
    (hfail : ∀ kw : Kwargs V, kw ≠ [] → ∃ e, fn args kw = .error e ∧ e.isTypeError = true)
    (hok : fn args [] = .ok r) :
    ∀ ks : List String, (dropRetries fn args kwargs ks).1 = none ∨
      (dropRetries fn args kwargs ks).1 = some (.ok r) := by
  intro ks
  induction ks with
  | nil => exact Or.inl rfl
  | cons key rest ih =>
    simp only [dropRetries]
    by_cases hc : (kwKeys kwargs).contains key
    · by_cases hkw : popKey kwargs key = []
      · simp only [hc, if_true, hkw, hok]
        exact Or.inr trivial
      · obtain ⟨e, he, hte⟩ := hfail (popKey kwargs key) hkw
        simp only [hc, if_true, he, hte, if_true]
        exact ih
    · simp only [hc, Bool.false_eq_true, if_false]
      exact ih

/-- Claim C4: against an engine stub that fails with a `TypeError` on
any non-empty kwargs dict and succeeds only kwargs-free, `_call_astro`
still succeeds via the positional-only fallback and returns the stub's
result. -/
theorem call_astro_positional_fallback {A V R : Type}
    (fn : A → Kwargs V → Except Exc R) (args : A) (kwargs : Kwargs V) (r : R)
    (hfail : ∀ kw : Kwargs V, kw ≠ [] → ∃ e, fn args kw = .error e ∧ e.isTypeError = true)
    (hok : fn args [] = .ok r) :
    _call_astro fn args kwargs = .ok r := by
  by_cases hkw : kwargs = []
  · rw [hkw]
    simp only [_call_astro, _call_astro_traced, hok]
  · obtain ⟨e0, he0, hte0⟩ := hfail kwargs hkw
    rcases dropRetries_none_or_ok fn args kwargs r hfail hok optional_keys with hn | hs
    · simp only [_call_astro, _call_astro_traced, he0, hte0, if_true, hn, hok]
    · simp only [_call_astro, _call_astro_traced, he0, hte0, if_true, hs]

/-- The C4 engine stub: records the positional arguments it was handed;
rejects every call that carries any optional keyword argument. -/
def zeroKwargStub : PyStr × Int × PyStr → Kwargs PyVal →
    Except Exc (PyStr × Int × PyStr) :=
  fun a kw => if kw = [] then .ok a else .error ⟨true, 1⟩

theorem call_astro_positional_fallback_applied :
    (_call_astro_traced zeroKwargStub ("2000-8-16".data, 2, "男".data)
        (solar_kwargs "ko-KR".data true)).2 =
      [solar_kwargs "ko-KR".data true,
       [("fix_leap", PyVal.bool true), ("fixLeap", PyVal.bool true)],
       [("language", PyVal.str "ko-KR".data), ("fixLeap", PyVal.bool true)],
       [("language", PyVal.str "ko-KR".data), ("fix_leap", PyVal.bool true)],
       []] ∧
    _call_astro zeroKwargStub ("2000-8-16".data, 2, "男".data)
      (solar_kwargs "ko-KR".data true) = .ok ("2000-8-16".data, 2, "男".data) :=
  ⟨by decide,
   call_astro_positional_fallback zeroKwargStub ("2000-8-16".data, 2, "男".data)
     (solar_kwargs "ko-KR".data true) ("2000-8-16".data, 2, "男".data)
     (fun kw hk => ⟨⟨true, 1⟩, by simp [zeroKwargStub, hk], rfl⟩)
     (by simp [zeroKwargStub])⟩

/-- The C1 engine stub: rejects exactly the full three-kwarg solar call
with a `TypeError` and otherwise succeeds, reporting the keyword names
it observed. -/
def dropOrderStub : Unit → Kwargs PyVal → Except Exc (List String) :=
  fun _ kw => if (kwKeys kw).length = 3 then .error ⟨true, 0⟩ else .ok (kwKeys kw)

/-- Claim C1 (refuted): on a solar request whose full call fails, the
first retry `_call_astro` makes already drops `language` — the leap
flags are still present in the kwargs of the succeeding call and no
leap-flag-dropping attempt was made before it, contrary to the claimed
drop-language-last preference order. -/
theorem call_astro_drops_language_first :
    _call_astro_traced dropOrderStub () (solar_kwargs "ko-KR".data true) =
      (.ok ["fix_leap", "fixLeap"],
       [solar_kwargs "ko-KR".data true,
        [("fix_leap", PyVal.bool true), ("fixLeap", PyVal.bool true)]]) := by
  decide

/-- Claim C7: in both renderers the bracketed flag suffix is exactly
" [body]", " [origin]", " [body origin]", or absent. -/
theorem render_flag_suffix_exact (p : PalaceEntry) :
    (p.isBodyPalace = true → p.isOriginalPalace = false →
      renderTextFlagTxt p = " [body]".data ∧ renderChartFlagTxt p = " [body]".data) ∧
    (p.isBodyPalace = false → p.isOriginalPalace = true →
      renderTextFlagTxt p = " [origin]".data ∧ renderChartFlagTxt p = " [origin]".data) ∧
    (p.isBodyPalace = true → p.isOriginalPalace = true →
      renderTextFlagTxt p = " [body origin]".data ∧
        renderChartFlagTxt p = " [body origin]".data) ∧
    (p.isBodyPalace = false → p.isOriginalPalace = false →
      renderTextFlagTxt p = [] ∧ renderChartFlagTxt p = []) := by
  obtain ⟨n, hs, eb, b, o⟩ := p
  cases b <;> cases o <;>
    refine ⟨fun h1 h2 => ?_, fun h1 h2 => ?_, fun h1 h2 => ?_, fun h1 h2 => ?_⟩ <;>
    first
      | exact ⟨rfl, rfl⟩
      | exact Bool.noConfusion h1
      | exact Bool.noConfusion h2

def bodyOnlyPalace : PalaceEntry :=
  ⟨"命宮".data, "甲".data, "子".data, true, false⟩

theorem render_flag_suffix_exact_applied :
    renderTextFlagTxt bodyOnlyPalace = " [body]".data ∧
    renderChartFlagTxt bodyOnlyPalace = " [body]".data :=
  (render_flag_suffix_exact bodyOnlyPalace).1 rfl rfl
